import Mathlib

/-!
Verification development for the host command/process/mount orchestration
engine of nfstest (src/nfstest/host.py).  The Python class Host is embedded
shallowly: its mutable attributes become the fields of HostState, the
operating system (subprocess results, filesystem probes, spawned pids,
process exit statuses) becomes an explicit World oracle indexed by a step
counter, and every externally visible action is recorded in an event trace.
Exceptions are modelled with Except.

Renamings forced by Lean syntax: the command-running method of the class is
modelled as runCmd, its keyword argument for elevation as sudoFlag, and the
attribute for the exported file system as exportPath.  All other names
follow the source.
-/

namespace Nfstest

/-- Result of executing one external command: captured standard output,
standard error and the exit status, as delivered by
subprocess.Popen.communicate and Popen.returncode. -/
structure CmdResult where
  stdout : String
  stderr : String
  rc : Int
  deriving DecidableEq, Repr

/-- The error taxonomy of the Host class: the three distinct raise sites of
the command runner (local command failure, ssh transport failure with
status 255, remote command failure), the invalid mount point failure of
_check_mtpoint, and the IndexError that Host.mount hits when indexing
mtopts[-1] on an empty mount-option string. -/
inductive Err where
  | localErr (msg : String)
  | sshErr (msg : String)
  | remoteErr (msg : String)
  | invalidMtpoint (mtpoint : String)
  | indexErr
  deriving DecidableEq, Repr

/-- Externally observable actions of the session. -/
inductive Event where
  | cmd (command : String) (sudoFlag : Bool) (blocking : Bool)
  | sleep (secs : Nat)
  | sync
  | localExists (p : String)
  | localIsDir (p : String)
  | localMkdir (p : String) (mode : Nat)
  | terminateSig (pid : Nat)
  | waitPid (pid : Nat)
  deriving DecidableEq, Repr

/-- The environment: command execution results keyed by the session's step
counter and the full command string, pids of spawned processes, local
filesystem probes, and exit statuses returned by Popen.wait. -/
structure World where
  exec : Nat → String → CmdResult
  spawnPid : Nat → Nat
  pathExists : String → Bool
  pathIsDir : String → Bool
  procWait : Nat → Int

/-- The mutable attributes of a Host object (Host.__init__), plus a step
counter used to index the World oracle. -/
structure HostState where
  host : String := ""
  user : String := ""
  server : String := ""
  nfsversion : Nat := 4
  minorversion : Nat := 1
  proto : String := "tcp"
  port : Nat := 2049
  sec : String := "sys"
  exportPath : String := "/"
  mtpoint : String := "/mnt/t"
  datadir : String := ""
  mtopts : String := "hard,rsize=4096,wsize=4096"
  nomount : Bool := false
  sudoPath : String := "/usr/bin/sudo"
  rootUser : Bool := false
  mtdir : String := "/mnt/t"
  mounted : Bool := false
  process : Option Nat := none
  pstdout : String := ""
  pstderr : String := ""
  perror : String := ""
  returncode : Int := 0
  process_list : List Nat := []
  process_smap : List Nat := []
  process_dmap : List (Nat × String) := []
  checkmtpoint : List String := []
  invalidmtpoint : List String := []
  mtpoint_created : List String := []
  need_network_reset : Bool := false
  clock : Nat := 0
  deriving DecidableEq, Repr

/-- The fields of the session that determine how a command string is
turned into the final command handed to the shell. -/
structure ExecCfg where
  host : String
  user : String
  sudoPath : String
  rootUser : Bool
  deriving DecidableEq, Repr

def HostState.ecfg (st : HostState) : ExecCfg :=
  ⟨st.host, st.user, st.sudoPath, st.rootUser⟩

/-- Host._localhost: true exactly when no host name was given. -/
def ExecCfg.isLocal (e : ExecCfg) : Bool := e.host = ""

def HostState.localhost (st : HostState) : Bool := st.ecfg.isLocal

/-- Host.sudo_cmd: prefix the sudo command if the effective user is not
root. -/
def sudo_cmd (e : ExecCfg) (cmd : String) : String :=
  if e.rootUser then cmd else e.sudoPath ++ " " ++ cmd

/-- cmd.replace of a double quote by a backslash-escaped double quote,
applied before remote wrapping. -/
def escapeQuotesList : List Char → List Char
  | [] => []
  | c :: cs =>
    if c = '"' then '\\' :: '"' :: escapeQuotesList cs
    else c :: escapeQuotesList cs

def escapeQuotes (s : String) : String := ⟨escapeQuotesList s.data⟩

/-- The ssh wrapping of the command runner for a remote host. -/
def sshWrap (e : ExecCfg) (cmd : String) : String :=
  let userAt := if e.user.length > 0 then e.user ++ "@" else ""
  "ssh -t -t " ++ userAt ++ e.host ++ " \"" ++ escapeQuotes cmd ++ "\""

/-- The full command string actually handed to the shell by the command
runner: optional sudo prefixing followed by optional ssh wrapping. -/
def finalCmd (e : ExecCfg) (cmd : String) (sudoFlag : Bool) : String :=
  let cmd1 := if sudoFlag then sudo_cmd e cmd else cmd
  if e.isLocal then cmd1 else sshWrap e cmd1

/-- Result of one modelled operation: the updated session state, the trace
of externally visible actions it performed, and its outcome. -/
structure Res (α : Type) where
  st : HostState
  events : List Event
  ret : Except Err α

/-- The blocking/non-blocking command runner of the Host class.  Blocking
mode captures output and classifies failure by locality and exit status;
non-blocking mode registers the process and returns no value (the bare
return statement in the source). -/
def runCmd (w : World) (st0 : HostState) (cmd : String) (sudoFlag : Bool)
    (dlevel : String) (wait : Bool) : Res (Option String) :=
  let st1 : HostState :=
    { st0 with process := none, pstdout := "", pstderr := "", perror := "",
               returncode := 0 }
  let full := finalCmd st1.ecfg cmd sudoFlag
  let pid := w.spawnPid st0.clock
  let st2 : HostState := { st1 with process := some pid, clock := st0.clock + 1 }
  if wait then
    let r := w.exec st0.clock full
    let st3 : HostState :=
      { st2 with pstdout := r.stdout, pstderr := r.stderr, returncode := r.rc }
    if st3.localhost then
      if r.rc ≠ 0 then
        ⟨{ st3 with perror := r.stderr }, [Event.cmd full sudoFlag true],
          .error (.localErr r.stderr)⟩
      else ⟨st3, [Event.cmd full sudoFlag true], .ok (some r.stdout)⟩
    else
      if r.rc = 255 then
        ⟨st3, [Event.cmd full sudoFlag true], .error (.sshErr r.stderr)⟩
      else if r.rc ≠ 0 then
        ⟨{ st3 with perror := r.stdout }, [Event.cmd full sudoFlag true],
          .error (.remoteErr r.stdout)⟩
      else ⟨st3, [Event.cmd full sudoFlag true], .ok (some r.stdout)⟩
  else
    let st3 : HostState :=
      { st2 with process_list := st2.process_list ++ [pid],
                 process_dmap := (pid, dlevel) :: st2.process_dmap,
                 process_smap := if sudoFlag then pid :: st2.process_smap
                                 else st2.process_smap }
    ⟨st3, [Event.cmd full sudoFlag false], .ok none⟩

/-- Python dict lookup on the modelled process_dmap (latest insertion
wins, because insertions are consed at the head). -/
def lookupD (m : List (Nat × String)) (k : Nat) : Option String :=
  (m.find? (fun kv => kv.1 == k)).map (fun kv => kv.2)

/-- The body of Host.wait_cmd: iterate over the snapshot plist; a process
still present in the registry is optionally terminated (privileged kill
through the command runner when it was registered in process_smap,
ordinary terminate signal otherwise), waited on, and removed; processes
absent from the registry are skipped.  Returns the exit status of the last
process processed. -/
def wait_cmd_go (w : World) (terminate : Bool) :
    List Nat → HostState → Option String → Option Int → Res (Option Int)
  | [], st, _, out => ⟨st, [], .ok out⟩
  | pid :: rest, st, dlevel0, out =>
    if pid ∈ st.process_list then
      let dlevel := if dlevel0.isSome then dlevel0 else lookupD st.process_dmap pid
      let step : Res Unit :=
        if terminate then
          if pid ∈ st.process_smap then
            let r := runCmd w st ("kill " ++ toString pid) true
              (dlevel.getD "DBG1") true
            match r.ret with
            | .error e => ⟨r.st, r.events, .error e⟩
            | .ok _ =>
              ⟨{ r.st with process_smap := r.st.process_smap.erase pid },
                r.events, .ok ()⟩
          else ⟨st, [Event.terminateSig pid], .ok ()⟩
        else ⟨st, [], .ok ()⟩
      match step.ret with
      | .error e => ⟨step.st, step.events, .error e⟩
      | .ok _ =>
        let st2 : HostState :=
          { step.st with process_list := step.st.process_list.erase pid }
        let rres := wait_cmd_go w terminate rest st2 dlevel
          (some (w.procWait pid))
        ⟨rres.st, step.events ++ (Event.waitPid pid :: rres.events), rres.ret⟩
    else
      wait_cmd_go w terminate rest st dlevel0 out

/-- Host.wait_cmd: wait for one explicitly given process, or for a
snapshot of all tracked processes when none is given. -/
def wait_cmd (w : World) (st : HostState) (process : Option Nat)
    (terminate : Bool) (dlevel : Option String) : Res (Option Int) :=
  let plist := match process with
    | none => st.process_list
    | some p => [p]
  wait_cmd_go w terminate plist st dlevel none

/-- Host.stop_cmd: wait_cmd with the terminate option set. -/
def stop_cmd (w : World) (st : HostState) (process : Option Nat)
    (dlevel : Option String) : Res (Option Int) :=
  wait_cmd w st process true dlevel

/-- The tail of Host._check_mtpoint after the existence and directory
probes: create a missing mount point (recording it on success), or record
and reject a path that exists but is not a directory. -/
def finishCheck (w : World) (st : HostState) (mtpoint : String)
    (exist isdir : Bool) (evs : List Event) : Res Unit :=
  if !exist then
    let r := runCmd w st ("mkdir -p " ++ mtpoint) true "DBG3" true
    match r.ret with
    | .error e => ⟨r.st, evs ++ r.events, .error e⟩
    | .ok _ =>
      ⟨{ r.st with mtpoint_created := r.st.mtpoint_created ++ [mtpoint] },
        evs ++ r.events, .ok ()⟩
  else if !isdir then
    ⟨{ st with invalidmtpoint := st.invalidmtpoint ++ [mtpoint] }, evs,
      .error (.invalidMtpoint mtpoint)⟩
  else ⟨st, evs, .ok ()⟩

/-- Host._check_mtpoint: memoized per-path validation of a mount point.
A path already recorded in checkmtpoint short-circuits; otherwise the path
is recorded and probed (locally through the filesystem, remotely through
two best-effort test commands whose failures are swallowed), then missing
paths are created and non-directories rejected. -/
def check_mtpoint (w : World) (st0 : HostState) (mtpoint : String) : Res Unit :=
  if mtpoint ∈ st0.checkmtpoint then ⟨st0, [], .ok ()⟩
  else
    let st : HostState :=
      { st0 with checkmtpoint := st0.checkmtpoint ++ [mtpoint] }
    if st.localhost then
      let exist := w.pathExists mtpoint
      if exist then
        let isdir := w.pathIsDir mtpoint
        finishCheck w st mtpoint true isdir
          [Event.localExists mtpoint, Event.localIsDir mtpoint]
      else
        finishCheck w st mtpoint false true [Event.localExists mtpoint]
    else
      let r1 := runCmd w st ("test -e \x27" ++ mtpoint ++ "\x27") false "DBG4" true
      let exist := r1.st.returncode = 0
      if exist then
        let r2 := runCmd w r1.st ("test -d \x27" ++ mtpoint ++ "\x27") false "DBG4" true
        let isdir := r2.st.returncode = 0
        finishCheck w r2.st mtpoint true isdir (r1.events ++ r2.events)
      else
        finishCheck w r1.st mtpoint false true r1.events

/-- Python str.rstrip with a slash argument: drop every trailing slash. -/
def rstripSlash (s : String) : String :=
  ⟨(s.data.reverse.dropWhile (fun c => c = '/')).reverse⟩

def headIsSlash (s : String) : Bool :=
  match s.data with
  | c :: _ => c = '/'
  | [] => false

def lastIsSlash (s : String) : Bool :=
  match s.data.getLast? with
  | some c => c = '/'
  | none => false

/-- posixpath.join restricted to two components, as used for the data
directory: an absolute second component wins; otherwise a separator is
inserted unless the first component is empty or already ends in one. -/
def pathJoin (a b : String) : String :=
  if headIsSlash b then b
  else if a = "" ∨ lastIsSlash a then a ++ b
  else a ++ "/" ++ b

/-- The mtopts normalization of Host.mount: indexing mtopts[-1] fails on
an empty string (IndexError, modelled as none); otherwise a trailing comma
is appended when the string does not already end in one. -/
def normMtopts (mtopts : String) : Option String :=
  if mtopts = "" then none
  else if mtopts.back = ',' then some mtopts
  else some (mtopts ++ ",")

/-- The minor-version clause of the mount command, emitted only for NFS
major version 4. -/
def minorversionStr (nfsversion minorversion : Nat) : String :=
  if nfsversion = 4 then "minorversion=" ++ toString minorversion ++ ","
  else ""

/-- The per-call options of Host.mount, defaulting to the session
attributes. -/
structure MountArgs where
  server : String
  nfsversion : Nat
  minorversion : Nat
  proto : String
  port : Nat
  sec : String
  exportPath : String
  mtpoint : String
  datadir : String
  mtopts : String
  deriving DecidableEq, Repr

def HostState.defaultMountArgs (st : HostState) : MountArgs :=
  ⟨st.server, st.nfsversion, st.minorversion, st.proto, st.port, st.sec,
   st.exportPath, st.mtpoint, st.datadir, st.mtopts⟩

/-- The command string constructed by Host.mount from its effective
options: mount point stripped of trailing slashes, export path stripped of
trailing slashes unless it is the root, mount options normalized to end in
a comma (IndexError on an empty option string), and a minor-version clause
only for major version 4. -/
def buildMountCmd (a : MountArgs) : Option String :=
  let mtpoint := rstripSlash a.mtpoint
  let exportP := if a.exportPath.length > 1 then rstripSlash a.exportPath
                 else a.exportPath
  match normMtopts a.mtopts with
  | none => none
  | some mtopts =>
    some ("mount -o vers=" ++ toString a.nfsversion ++ ","
      ++ minorversionStr a.nfsversion a.minorversion
      ++ mtopts
      ++ "proto=" ++ a.proto ++ ",sec=" ++ a.sec
      ++ ",port=" ++ toString a.port
      ++ " " ++ a.server ++ ":" ++ exportP ++ " " ++ mtpoint)

/-- Host.mount: normalize the mount point, set the data-directory
attribute mtdir, validate the mount point, short-circuit under the nomount
debug flag or an invalid mount point, issue the elevated mount command,
mark the session mounted, and ensure the data directory exists (locally
via os.mkdir, remotely via a probe followed by an unprivileged mkdir).
Returns the normalized mount point. -/
def mount (w : World) (st0 : HostState) (a : MountArgs) : Res (Option String) :=
  let mtpoint := rstripSlash a.mtpoint
  let stA : HostState :=
    { st0 with mtdir := if a.datadir.length ≠ 0 then pathJoin mtpoint a.datadir
                        else mtpoint }
  let rc := check_mtpoint w stA mtpoint
  match rc.ret with
  | .error e => ⟨rc.st, rc.events, .error e⟩
  | .ok _ =>
    let stB := rc.st
    if stB.nomount ∨ mtpoint ∈ stB.invalidmtpoint then
      ⟨stB, rc.events, .ok none⟩
    else
      match buildMountCmd a with
      | none => ⟨stB, rc.events, .error .indexErr⟩
      | some cmd =>
        let r := runCmd w stB cmd true "DBG2" true
        match r.ret with
        | .error e => ⟨r.st, rc.events ++ r.events, .error e⟩
        | .ok _ =>
          let stC : HostState := { r.st with mounted := true, mtpoint := mtpoint }
          if stC.localhost then
            if w.pathExists stC.mtdir then
              ⟨stC, rc.events ++ r.events ++ [Event.localExists stC.mtdir],
                .ok (some mtpoint)⟩
            else
              ⟨stC, rc.events ++ r.events
                ++ [Event.localExists stC.mtdir, Event.localMkdir stC.mtdir 511],
                .ok (some mtpoint)⟩
          else
            let r2 := runCmd w stC ("test -e \x27" ++ stC.mtdir ++ "\x27")
              false "DBG4" true
            if r2.st.returncode ≠ 0 then
              let r3 := runCmd w r2.st ("mkdir -m 0777 -p " ++ r2.st.mtdir)
                false "DBG3" true
              match r3.ret with
              | .error e =>
                ⟨r3.st, rc.events ++ r.events ++ r2.events ++ r3.events, .error e⟩
              | .ok _ =>
                ⟨r3.st, rc.events ++ r.events ++ r2.events ++ r3.events,
                  .ok (some mtpoint)⟩
            else
              ⟨r2.st, rc.events ++ r.events ++ r2.events, .ok (some mtpoint)⟩

/-- The success test of one unmount attempt, applied to the session state
recorded by the attempt: exit status zero, or an error text matching the
pattern for not mounted / not found (the regex is a plain alternation of
two literal substrings). -/
def hasSubList (needle : List Char) : List Char → Bool
  | [] => needle.isEmpty
  | c :: cs => needle.isPrefixOf (c :: cs) || hasSubList needle cs

def notMountedMatch (s : String) : Bool :=
  hasSubList "not mounted".data s.data || hasSubList "not found".data s.data

/-- One iteration of the unmount retry loop: the 1-second pause followed
by the elevated forced unmount whose failure is swallowed. -/
def umountAttempt (w : World) (cmd : String) (st : HostState) :
    HostState × List Event :=
  let r := runCmd w st cmd true "DBG2" true
  (r.st, Event.sleep 1 :: r.events)

/-- The bounded retry loop of Host.umount: up to the given fuel (5 in the
source) attempts, stopping and clearing the mounted flag at the first
attempt whose exit status is zero or whose recorded error text matches the
not-mounted pattern. -/
def umountLoopGo (w : World) (cmd : String) : Nat → HostState → HostState × List Event
  | 0, st => (st, [])
  | Nat.succ n, st =>
    let a := umountAttempt w cmd st
    if a.1.returncode == 0 || notMountedMatch a.1.perror then
      ({ a.1 with mounted := false }, a.2)
    else
      let b := umountLoopGo w cmd n a.1
      (b.1, a.2 ++ b.2)

/-- Host.umount: no-op under the nomount debug flag, mount-point
validation, short-circuit on an invalid mount point, buffer flush, then
the bounded retry loop.  The loop itself never raises. -/
def umount (w : World) (st0 : HostState) : Res Unit :=
  if st0.nomount then ⟨st0, [], .ok ()⟩
  else
    let rc := check_mtpoint w st0 st0.mtpoint
    match rc.ret with
    | .error e => ⟨rc.st, rc.events, .error e⟩
    | .ok _ =>
      let st := rc.st
      if st.mtpoint ∈ st.invalidmtpoint then ⟨st, rc.events, .ok ()⟩
      else
        let cmd := "umount -f " ++ st.mtpoint
        let b := umountLoopGo w cmd 5 st
        ⟨b.1, rc.events ++ (Event.sync :: b.2), .ok ()⟩

/-- The directory-removal loop of Host.__del__: one best-effort elevated
rmdir per recorded auto-created mount point, failures swallowed. -/
def teardown_go (w : World) : List String → HostState → HostState × List Event
  | [], st => (st, [])
  | p :: rest, st =>
    let r := runCmd w st ("rmdir " ++ p) true "DBG3" true
    let b := teardown_go w rest r.st
    (b.1, r.events ++ b.2)

def teardown_rmdirs (w : World) (st : HostState) : HostState × List Event :=
  teardown_go w st.mtpoint_created st

/-- The Python regex class for whitespace, restricted to ASCII. -/
def isWsChar (c : Char) : Bool :=
  c = ' ' || c = '\t' || c = '\n' || c = '\r' || c = '\x0b' || c = '\x0c'

/-- Maximal munch of characters satisfying p (greedy repetition whose
continuation excludes the same class needs no backtracking). -/
def munch (p : Char → Bool) : List Char → List Char × List Char
  | [] => ([], [])
  | c :: cs =>
    if p c then
      let r := munch p cs
      (c :: r.1, r.2)
    else ([], c :: cs)

/-- Match a literal character sequence. -/
def stripLit : List Char → List Char → Option (List Char)
  | [], s => some s
  | _ :: _, [] => none
  | l :: ls, c :: cs => if l = c then stripLit ls cs else none

/-- Match one whitespace character, a literal word, one or more whitespace
characters, and a captured maximal run of non-whitespace characters: the
shape of each of the three clauses of the routing regex.  The greedy inner
repetitions allow no other split because each is followed by the opposite
character class. -/
def matchClause (word : List Char) : List Char → Option (List Char × List Char)
  | [] => none
  | c :: cs =>
    if isWsChar c then
      match stripLit word cs with
      | none => none
      | some rest =>
        let m1 := munch isWsChar rest
        if m1.1.isEmpty then none
        else
          let m2 := munch (fun d => !isWsChar d) m1.2
          if m2.1.isEmpty then none
          else some (m2.1, m2.2)
    else none

/-- Match the greedy dot-star followed by the src clause: the dot cannot
cross a newline, and greediness binds the clause to the latest reachable
position, hence the deepest-first recursion. -/
def matchDotStarSrc : List Char → Option (List Char)
  | [] => none
  | c :: cs =>
    if c = '\n' then (matchClause "src".data (c :: cs)).map (fun r => r.1)
    else
      match matchDotStarSrc cs with
      | some r => some r
      | none => (matchClause "src".data (c :: cs)).map (fun r => r.1)

/-- Match the mandatory tail of the routing regex: the dev clause followed
by the greedy gap and the src clause. -/
def matchDevSrc (s : List Char) : Option (List Char × List Char) :=
  match matchClause "dev".data s with
  | none => none
  | some dr =>
    match matchDotStarSrc dr.2 with
    | some src => some (dr.1, src)
    | none => none

/-- Match the whole routing regex anchored at the current position: the
optional via group is greedy, so it is tried first and dropped when the
mandatory tail cannot follow it. -/
def matchPatAt (s : List Char) : Option (Option (List Char) × List Char × List Char) :=
  match matchClause "via".data s with
  | some gr =>
    match matchDevSrc gr.2 with
    | some ds => some (some gr.1, ds.1, ds.2)
    | none => (matchDevSrc s).map (fun ds => (none, ds.1, ds.2))
  | none => (matchDevSrc s).map (fun ds => (none, ds.1, ds.2))

/-- re.search: try each start position from the left. -/
def reSearchRoute : List Char → Option (Option String × String × String)
  | [] => none
  | c :: cs =>
    match matchPatAt (c :: cs) with
    | some g => some (g.1.map (fun l => ⟨l⟩), ⟨g.2.1⟩, ⟨g.2.2⟩)
    | none => reSearchRoute cs

/-- The parse of one routing-query output: the last three capture groups
on a match, the all-None triple otherwise. -/
def routeParse (out : String) : Option String × Option String × Option String :=
  match reSearchRoute out.data with
  | some g => (g.1, some g.2.1, some g.2.2)
  | none => (none, none, none)

/-- Host.get_route: issue the routing query and parse its output; any
failure of the query or of the parse yields the all-None triple. -/
def get_route (w : World) (st : HostState) (ipaddr : String) :
    Res (Option String × Option String × Option String) :=
  let r := runCmd w st ("ip route get " ++ ipaddr) false "DBG1" true
  match r.ret with
  | .ok (some out) => ⟨r.st, r.events, .ok (routeParse out)⟩
  | _ => ⟨r.st, r.events, .ok (none, none, none)⟩

/-- The error payload recorded on the session (attribute perror) by a
blocking run of the command runner, as a function of locality and of the
process result: stderr for a local failure, nothing for a transport
failure (status 255), stdout for any other remote failure, nothing on
success. -/
def perrorAfter (localhost : Bool) (r : CmdResult) : String :=
  if localhost then
    if r.rc ≠ 0 then r.stderr else ""
  else
    if r.rc = 255 then ""
    else if r.rc ≠ 0 then r.stdout else ""

/-- The outcome of a blocking run of the command runner as a function of
locality and of the process result. -/
def retAfter (localhost : Bool) (r : CmdResult) : Except Err (Option String) :=
  if localhost then
    if r.rc ≠ 0 then .error (.localErr r.stderr) else .ok (some r.stdout)
  else
    if r.rc = 255 then .error (.sshErr r.stderr)
    else if r.rc ≠ 0 then .error (.remoteErr r.stdout)
    else .ok (some r.stdout)

/-- The success test of the i-th unmount attempt expressed against the
World oracle: the attempt at step counter k succeeds when the command
exits zero or the error text recorded by the runner matches the
not-mounted pattern. -/
def attemptOkB (w : World) (e : ExecCfg) (cmd : String) (k : Nat) : Bool :=
  (w.exec k (finalCmd e cmd true)).rc == 0 ||
    notMountedMatch (perrorAfter e.isLocal (w.exec k (finalCmd e cmd true)))

/-- The first index below the fuel bound at which the predicate holds. -/
def firstOkWithin (p : Nat → Bool) : Nat → Option Nat
  | 0 => none
  | Nat.succ n =>
    if p 0 then some 0
    else (firstOkWithin (fun i => p (i + 1)) n).map (fun k => k + 1)

/-- The pair of events of one unmount attempt: the pause then the elevated
forced unmount command. -/
def attemptRound (e : ExecCfg) (cmd : String) : List Event :=
  [Event.sleep 1, Event.cmd (finalCmd e cmd true) true true]

/-- Concrete environments and sessions used to instantiate the general
theorems on closed inputs. -/
def wOk : World :=
  ⟨fun _ _ => ⟨"", "", 0⟩, fun k => 100 + k, fun _ => true, fun _ => true,
   fun _ => 7⟩

def wFail : World :=
  ⟨fun _ _ => ⟨"out", "boom", 1⟩, fun k => 100 + k, fun _ => true,
   fun _ => true, fun _ => 7⟩

def wSsh : World :=
  ⟨fun _ _ => ⟨"out", "auth", 255⟩, fun k => 100 + k, fun _ => true,
   fun _ => true, fun _ => 7⟩

def wNoSrc : World :=
  ⟨fun _ _ => ⟨"10.0.0.1 dev eth0", "", 0⟩, fun k => 100 + k, fun _ => true,
   fun _ => true, fun _ => 7⟩

def wC8 : World :=
  ⟨fun _ c => if hasSubList "test -e".data c.data then ⟨"", "", 1⟩
              else ⟨"", "", 0⟩,
   fun k => 100 + k, fun _ => false, fun _ => false, fun _ => 7⟩

def stLocal : HostState := {}

def stRemote : HostState := { host := "srv", user := "root" }

def stChecked : HostState := { checkmtpoint := ["/mnt/t"], mounted := true }

def stNomount : HostState := { nomount := true }

def stC8 : HostState :=
  { host := "srv", user := "root", datadir := "data", exportPath := "/x",
    server := "10.0.0.1" }

def mountArgsEx : MountArgs :=
  ⟨"10.0.0.1", 4, 1, "tcp", 2049, "sys", "/x", "/mnt/t", "",
   "hard,rsize=4096,wsize=4096"⟩

theorem runCmd_wait_st (w : World) (st : HostState) (cmd : String)
    (sf : Bool) (dl : String) :
    (runCmd w st cmd sf dl true).st =
      { st with process := some (w.spawnPid st.clock),
                pstdout := (w.exec st.clock (finalCmd st.ecfg cmd sf)).stdout,
                pstderr := (w.exec st.clock (finalCmd st.ecfg cmd sf)).stderr,
                perror := perrorAfter st.localhost
                  (w.exec st.clock (finalCmd st.ecfg cmd sf)),
                returncode := (w.exec st.clock (finalCmd st.ecfg cmd sf)).rc,
                clock := st.clock + 1 } := by
  by_cases hl : st.localhost <;>
    by_cases h0 : (w.exec st.clock (finalCmd st.ecfg cmd sf)).rc = 0 <;>
    by_cases h255 : (w.exec st.clock (finalCmd st.ecfg cmd sf)).rc = 255 <;>
    simp_all [runCmd, perrorAfter, HostState.localhost, HostState.ecfg,
      ExecCfg.isLocal]

theorem runCmd_wait_events (w : World) (st : HostState) (cmd : String)
    (sf : Bool) (dl : String) :
    (runCmd w st cmd sf dl true).events =
      [Event.cmd (finalCmd st.ecfg cmd sf) sf true] := by
  by_cases hl : st.localhost <;>
    by_cases h0 : (w.exec st.clock (finalCmd st.ecfg cmd sf)).rc = 0 <;>
    by_cases h255 : (w.exec st.clock (finalCmd st.ecfg cmd sf)).rc = 255 <;>
    simp_all [runCmd, HostState.localhost, HostState.ecfg, ExecCfg.isLocal]

theorem runCmd_wait_ret (w : World) (st : HostState) (cmd : String)
    (sf : Bool) (dl : String) :
    (runCmd w st cmd sf dl true).ret =
      retAfter st.localhost (w.exec st.clock (finalCmd st.ecfg cmd sf)) := by
  by_cases hl : st.localhost <;>
    by_cases h0 : (w.exec st.clock (finalCmd st.ecfg cmd sf)).rc = 0 <;>
    by_cases h255 : (w.exec st.clock (finalCmd st.ecfg cmd sf)).rc = 255 <;>
    simp_all [runCmd, retAfter, HostState.localhost, HostState.ecfg,
      ExecCfg.isLocal]

theorem runCmd_nowait_st (w : World) (st : HostState) (cmd : String)
    (sf : Bool) (dl : String) :
    (runCmd w st cmd sf dl false).st =
      { st with process := some (w.spawnPid st.clock),
                clock := st.clock + 1,
                process_list := st.process_list ++ [w.spawnPid st.clock],
                process_dmap := (w.spawnPid st.clock, dl) :: st.process_dmap,
                process_smap := if sf then w.spawnPid st.clock :: st.process_smap
                                else st.process_smap,
                pstdout := "", pstderr := "", perror := "", returncode := 0 } := by
  simp [runCmd]

theorem runCmd_nowait_events (w : World) (st : HostState) (cmd : String)
    (sf : Bool) (dl : String) :
    (runCmd w st cmd sf dl false).events =
      [Event.cmd (finalCmd st.ecfg cmd sf) sf false] := rfl

theorem runCmd_nowait_ret (w : World) (st : HostState) (cmd : String)
    (sf : Bool) (dl : String) :
    (runCmd w st cmd sf dl false).ret = .ok none := rfl

theorem runCmd_ecfg (w : World) (st : HostState) (cmd : String)
    (sf : Bool) (dl : String) (wt : Bool) :
    (runCmd w st cmd sf dl wt).st.ecfg = st.ecfg := by
  cases wt <;> simp [runCmd_wait_st, runCmd_nowait_st, HostState.ecfg]

theorem runCmd_checkmtpoint (w : World) (st : HostState) (cmd : String)
    (sf : Bool) (dl : String) (wt : Bool) :
    (runCmd w st cmd sf dl wt).st.checkmtpoint = st.checkmtpoint := by
  cases wt <;> simp [runCmd_wait_st, runCmd_nowait_st]

theorem runCmd_invalidmtpoint (w : World) (st : HostState) (cmd : String)
    (sf : Bool) (dl : String) (wt : Bool) :
    (runCmd w st cmd sf dl wt).st.invalidmtpoint = st.invalidmtpoint := by
  cases wt <;> simp [runCmd_wait_st, runCmd_nowait_st]

theorem runCmd_created (w : World) (st : HostState) (cmd : String)
    (sf : Bool) (dl : String) (wt : Bool) :
    (runCmd w st cmd sf dl wt).st.mtpoint_created = st.mtpoint_created := by
  cases wt <;> simp [runCmd_wait_st, runCmd_nowait_st]

theorem runCmd_nomount (w : World) (st : HostState) (cmd : String)
    (sf : Bool) (dl : String) (wt : Bool) :
    (runCmd w st cmd sf dl wt).st.nomount = st.nomount := by
  cases wt <;> simp [runCmd_wait_st, runCmd_nowait_st]

theorem runCmd_mtpoint (w : World) (st : HostState) (cmd : String)
    (sf : Bool) (dl : String) (wt : Bool) :
    (runCmd w st cmd sf dl wt).st.mtpoint = st.mtpoint := by
  cases wt <;> simp [runCmd_wait_st, runCmd_nowait_st]

theorem runCmd_mtdir (w : World) (st : HostState) (cmd : String)
    (sf : Bool) (dl : String) (wt : Bool) :
    (runCmd w st cmd sf dl wt).st.mtdir = st.mtdir := by
  cases wt <;> simp [runCmd_wait_st, runCmd_nowait_st]

theorem runCmd_mounted (w : World) (st : HostState) (cmd : String)
    (sf : Bool) (dl : String) (wt : Bool) :
    (runCmd w st cmd sf dl wt).st.mounted = st.mounted := by
  cases wt <;> simp [runCmd_wait_st, runCmd_nowait_st]

theorem runCmd_wait_plist (w : World) (st : HostState) (cmd : String)
    (sf : Bool) (dl : String) :
    (runCmd w st cmd sf dl true).st.process_list = st.process_list := by
  simp [runCmd_wait_st]

theorem runCmd_wait_smap (w : World) (st : HostState) (cmd : String)
    (sf : Bool) (dl : String) :
    (runCmd w st cmd sf dl true).st.process_smap = st.process_smap := by
  simp [runCmd_wait_st]

theorem runCmd_host (w : World) (st : HostState) (cmd : String)
    (sf : Bool) (dl : String) (wt : Bool) :
    (runCmd w st cmd sf dl wt).st.host = st.host := by
  cases wt <;> simp [runCmd_wait_st, runCmd_nowait_st]

theorem runCmd_user (w : World) (st : HostState) (cmd : String)
    (sf : Bool) (dl : String) (wt : Bool) :
    (runCmd w st cmd sf dl wt).st.user = st.user := by
  cases wt <;> simp [runCmd_wait_st, runCmd_nowait_st]

theorem runCmd_sudoPath (w : World) (st : HostState) (cmd : String)
    (sf : Bool) (dl : String) (wt : Bool) :
    (runCmd w st cmd sf dl wt).st.sudoPath = st.sudoPath := by
  cases wt <;> simp [runCmd_wait_st, runCmd_nowait_st]

theorem runCmd_rootUser (w : World) (st : HostState) (cmd : String)
    (sf : Bool) (dl : String) (wt : Bool) :
    (runCmd w st cmd sf dl wt).st.rootUser = st.rootUser := by
  cases wt <;> simp [runCmd_wait_st, runCmd_nowait_st]

theorem runCmd_localhost (w : World) (st : HostState) (cmd : String)
    (sf : Bool) (dl : String) (wt : Bool) :
    (runCmd w st cmd sf dl wt).st.localhost = st.localhost := by
  simp [HostState.localhost, runCmd_ecfg]

theorem runCmd_clock (w : World) (st : HostState) (cmd : String)
    (sf : Bool) (dl : String) (wt : Bool) :
    (runCmd w st cmd sf dl wt).st.clock = st.clock + 1 := by
  cases wt <;> simp [runCmd_wait_st, runCmd_nowait_st]

/-- A blocking run of a command whose exit status is zero succeeds and
returns its standard output. -/
theorem runCmd_ok_of_rc_zero (w : World) (st : HostState) (cmd : String)
    (sf : Bool) (dl : String)
    (h : (w.exec st.clock (finalCmd st.ecfg cmd sf)).rc = 0) :
    (runCmd w st cmd sf dl true).ret =
      .ok (some (w.exec st.clock (finalCmd st.ecfg cmd sf)).stdout) := by
  rw [runCmd_wait_ret]
  by_cases hl : st.localhost <;> simp [retAfter, hl, h]

/-- finishCheck does not touch the memo list of checked mount points. -/
theorem finishCheck_checkmtpoint (w : World) (st : HostState) (p : String)
    (exist isdir : Bool) (evs : List Event) :
    (finishCheck w st p exist isdir evs).st.checkmtpoint = st.checkmtpoint := by
  unfold finishCheck
  cases hr : (runCmd w st ("mkdir -p " ++ p) true "DBG3" true).ret <;>
    by_cases he : exist <;> by_cases hd : isdir <;>
      simp [he, hd, hr, runCmd_checkmtpoint]

theorem finishCheck_nomount (w : World) (st : HostState) (p : String)
    (exist isdir : Bool) (evs : List Event) :
    (finishCheck w st p exist isdir evs).st.nomount = st.nomount := by
  unfold finishCheck
  cases hr : (runCmd w st ("mkdir -p " ++ p) true "DBG3" true).ret <;>
    by_cases he : exist <;> by_cases hd : isdir <;>
      simp [he, hd, hr, runCmd_nomount]

theorem finishCheck_mtdir (w : World) (st : HostState) (p : String)
    (exist isdir : Bool) (evs : List Event) :
    (finishCheck w st p exist isdir evs).st.mtdir = st.mtdir := by
  unfold finishCheck
  cases hr : (runCmd w st ("mkdir -p " ++ p) true "DBG3" true).ret <;>
    by_cases he : exist <;> by_cases hd : isdir <;>
      simp [he, hd, hr, runCmd_mtdir]

theorem finishCheck_mounted (w : World) (st : HostState) (p : String)
    (exist isdir : Bool) (evs : List Event) :
    (finishCheck w st p exist isdir evs).st.mounted = st.mounted := by
  unfold finishCheck
  cases hr : (runCmd w st ("mkdir -p " ++ p) true "DBG3" true).ret <;>
    by_cases he : exist <;> by_cases hd : isdir <;>
      simp [he, hd, hr, runCmd_mounted]

theorem finishCheck_ecfg (w : World) (st : HostState) (p : String)
    (exist isdir : Bool) (evs : List Event) :
    (finishCheck w st p exist isdir evs).st.ecfg = st.ecfg := by
  unfold finishCheck
  cases hr : (runCmd w st ("mkdir -p " ++ p) true "DBG3" true).ret <;>
    by_cases he : exist <;> by_cases hd : isdir <;>
      simp [he, hd, hr, runCmd_host, runCmd_user, runCmd_sudoPath,
        runCmd_rootUser, HostState.ecfg]

theorem finishCheck_mtpoint (w : World) (st : HostState) (p : String)
    (exist isdir : Bool) (evs : List Event) :
    (finishCheck w st p exist isdir evs).st.mtpoint = st.mtpoint := by
  unfold finishCheck
  cases hr : (runCmd w st ("mkdir -p " ++ p) true "DBG3" true).ret <;>
    by_cases he : exist <;> by_cases hd : isdir <;>
      simp [he, hd, hr, runCmd_mtpoint]

theorem finishCheck_ok_invalid (w : World) (st : HostState) (p : String)
    (exist isdir : Bool) (evs : List Event)
    (h : (finishCheck w st p exist isdir evs).ret = .ok ()) :
    (finishCheck w st p exist isdir evs).st.invalidmtpoint = st.invalidmtpoint := by
  revert h
  unfold finishCheck
  cases hr : (runCmd w st ("mkdir -p " ++ p) true "DBG3" true).ret <;>
    by_cases he : exist <;> by_cases hd : isdir <;>
      simp [he, hd, hr, runCmd_invalidmtpoint]

theorem finishCheck_created_or (w : World) (st : HostState) (p : String)
    (exist isdir : Bool) (evs : List Event) :
    (finishCheck w st p exist isdir evs).st.mtpoint_created = st.mtpoint_created ∨
    (finishCheck w st p exist isdir evs).st.mtpoint_created =
      st.mtpoint_created ++ [p] := by
  unfold finishCheck
  cases hr : (runCmd w st ("mkdir -p " ++ p) true "DBG3" true).ret <;>
    by_cases he : exist <;> by_cases hd : isdir <;>
      simp [he, hd, hr, runCmd_created]

/-- The memoization of _check_mtpoint: a path already recorded as checked
is returned immediately with no state change, no events and no error. -/
theorem check_mtpoint_mem (w : World) (st : HostState) (p : String)
    (h : p ∈ st.checkmtpoint) :
    check_mtpoint w st p = ⟨st, [], .ok ()⟩ := by
  unfold check_mtpoint
  simp [h]

/-- Any first call records the path in the memo list (even when the call
raises), so later calls short-circuit. -/
theorem check_mtpoint_checklist (w : World) (st : HostState) (p : String) :
    (check_mtpoint w st p).st.checkmtpoint =
      if p ∈ st.checkmtpoint then st.checkmtpoint
      else st.checkmtpoint ++ [p] := by
  by_cases h : p ∈ st.checkmtpoint
  · simp [check_mtpoint_mem w st p h, h]
  · unfold check_mtpoint
    simp only [h, if_false, ite_false]
    repeat' split
    all_goals simp [finishCheck_checkmtpoint, runCmd_checkmtpoint, h]

theorem check_mtpoint_nomount (w : World) (st : HostState) (p : String) :
    (check_mtpoint w st p).st.nomount = st.nomount := by
  by_cases h : p ∈ st.checkmtpoint
  · simp [check_mtpoint_mem w st p h]
  · unfold check_mtpoint
    simp only [h, if_false, ite_false]
    repeat' split
    all_goals simp [finishCheck_nomount, runCmd_nomount]

theorem check_mtpoint_mtdir (w : World) (st : HostState) (p : String) :
    (check_mtpoint w st p).st.mtdir = st.mtdir := by
  by_cases h : p ∈ st.checkmtpoint
  · simp [check_mtpoint_mem w st p h]
  · unfold check_mtpoint
    simp only [h, if_false, ite_false]
    repeat' split
    all_goals simp [finishCheck_mtdir, runCmd_mtdir]

theorem check_mtpoint_mounted (w : World) (st : HostState) (p : String) :
    (check_mtpoint w st p).st.mounted = st.mounted := by
  by_cases h : p ∈ st.checkmtpoint
  · simp [check_mtpoint_mem w st p h]
  · unfold check_mtpoint
    simp only [h, if_false, ite_false]
    repeat' split
    all_goals simp [finishCheck_mounted, runCmd_mounted]

theorem check_mtpoint_ecfg (w : World) (st : HostState) (p : String) :
    (check_mtpoint w st p).st.ecfg = st.ecfg := by
  by_cases h : p ∈ st.checkmtpoint
  · simp [check_mtpoint_mem w st p h]
  · unfold check_mtpoint
    simp only [h, if_false, ite_false]
    repeat' split
    all_goals rw [finishCheck_ecfg]
    all_goals simp [HostState.ecfg, runCmd_host, runCmd_user, runCmd_sudoPath,
      runCmd_rootUser]

theorem check_mtpoint_mtpointF (w : World) (st : HostState) (p : String) :
    (check_mtpoint w st p).st.mtpoint = st.mtpoint := by
  by_cases h : p ∈ st.checkmtpoint
  · simp [check_mtpoint_mem w st p h]
  · unfold check_mtpoint
    simp only [h, if_false, ite_false]
    repeat' split
    all_goals simp [finishCheck_mtpoint, runCmd_mtpoint]

theorem check_mtpoint_ok_invalid (w : World) (st : HostState) (p : String)
    (h : (check_mtpoint w st p).ret = .ok ()) :
    (check_mtpoint w st p).st.invalidmtpoint = st.invalidmtpoint := by
  revert h
  by_cases h : p ∈ st.checkmtpoint
  · simp [check_mtpoint_mem w st p h]
  · unfold check_mtpoint
    simp only [h, if_false, ite_false]
    repeat' split
    all_goals intro hh
    all_goals rw [finishCheck_ok_invalid _ _ _ _ _ _ hh]
    all_goals simp [runCmd_invalidmtpoint]

theorem check_mtpoint_created_or (w : World) (st : HostState) (p : String) :
    (check_mtpoint w st p).st.mtpoint_created = st.mtpoint_created ∨
    (check_mtpoint w st p).st.mtpoint_created = st.mtpoint_created ++ [p] := by
  by_cases h : p ∈ st.checkmtpoint
  · simp [check_mtpoint_mem w st p h]
  · unfold check_mtpoint
    simp only [h, if_false, ite_false]
    repeat' split
    all_goals (rcases finishCheck_created_or w _ p _ _ _ with hc | hc :
        _ ∨ _) <;> rw [hc] <;> simp [runCmd_created]

theorem umountAttempt_st (w : World) (cmd : String) (st : HostState) :
    (umountAttempt w cmd st).1 = (runCmd w st cmd true "DBG2" true).st := rfl

theorem umountAttempt_events (w : World) (cmd : String) (st : HostState) :
    (umountAttempt w cmd st).2 = attemptRound st.ecfg cmd := by
  simp [umountAttempt, runCmd_wait_events, attemptRound]

theorem umountAttempt_ok (w : World) (cmd : String) (st : HostState) :
    ((umountAttempt w cmd st).1.returncode == 0 ||
        notMountedMatch (umountAttempt w cmd st).1.perror) =
      attemptOkB w st.ecfg cmd st.clock := by
  simp only [umountAttempt_st, runCmd_wait_st, attemptOkB, HostState.localhost]

/-- Full characterization of the unmount retry loop: with attempt
successes given by the predicate over relative attempt indices, the loop
stops at the first success (clearing the mounted flag) after emitting one
pause-and-command round per attempt, and otherwise runs exactly fuel
rounds and leaves the mounted flag unchanged. -/
theorem umountLoopGo_spec (w : World) (cmd : String) :
    ∀ (fuel : Nat) (st : HostState),
      (match firstOkWithin (fun i => attemptOkB w st.ecfg cmd (st.clock + i)) fuel with
       | some k =>
         (umountLoopGo w cmd fuel st).1.mounted = false ∧
         (umountLoopGo w cmd fuel st).2 =
           (List.replicate (k + 1) (attemptRound st.ecfg cmd)).flatten
       | none =>
         (umountLoopGo w cmd fuel st).1.mounted = st.mounted ∧
         (umountLoopGo w cmd fuel st).2 =
           (List.replicate fuel (attemptRound st.ecfg cmd)).flatten) := by
  intro fuel
  induction fuel with
  | zero => intro st; simp [firstOkWithin, umountLoopGo]
  | succ n ih =>
    intro st
    have hec : (umountAttempt w cmd st).1.ecfg = st.ecfg := by
      rw [umountAttempt_st, runCmd_ecfg]
    have hck : (umountAttempt w cmd st).1.clock = st.clock + 1 := by
      rw [umountAttempt_st, runCmd_clock]
    have hmt : (umountAttempt w cmd st).1.mounted = st.mounted := by
      rw [umountAttempt_st, runCmd_mounted]
    have hfun : (fun i => attemptOkB w (umountAttempt w cmd st).1.ecfg cmd
          ((umountAttempt w cmd st).1.clock + i)) =
        (fun i => attemptOkB w st.ecfg cmd (st.clock + (i + 1))) := by
      funext i
      rw [hec, hck]
      congr 1
      omega
    have hstep := ih (umountAttempt w cmd st).1
    rw [hfun] at hstep
    by_cases hc : attemptOkB w st.ecfg cmd st.clock = true
    · have hz : attemptOkB w st.ecfg cmd (st.clock + 0) = true := by
        simpa using hc
      simp only [firstOkWithin, hz, if_true, ite_true]
      constructor
      · simp only [umountLoopGo]
        rw [umountAttempt_ok, hc]
        simp
      · simp only [umountLoopGo]
        rw [umountAttempt_ok, hc]
        simp [umountAttempt_events]
    · have hcf : attemptOkB w st.ecfg cmd st.clock = false := by
        simpa using hc
      have hz : attemptOkB w st.ecfg cmd (st.clock + 0) = false := by
        simpa using hcf
      simp only [firstOkWithin, hz, if_false, Bool.false_eq_true, ite_false]
      cases hfo : firstOkWithin
          (fun i => attemptOkB w st.ecfg cmd (st.clock + (i + 1))) n with
      | none =>
        rw [hfo] at hstep
        simp only [Option.map_none']
        constructor
        · simp only [umountLoopGo]
          rw [umountAttempt_ok, hcf]
          simp only [Bool.false_eq_true, if_false, ite_false]
          rw [hstep.1, hmt]
        · simp only [umountLoopGo]
          rw [umountAttempt_ok, hcf]
          simp only [Bool.false_eq_true, if_false, ite_false]
          rw [hstep.2, umountAttempt_events, hec]
          simp [List.replicate_succ]
      | some k =>
        rw [hfo] at hstep
        simp only [Option.map_some']
        constructor
        · simp only [umountLoopGo]
          rw [umountAttempt_ok, hcf]
          simp only [Bool.false_eq_true, if_false, ite_false]
          exact hstep.1
        · simp only [umountLoopGo]
          rw [umountAttempt_ok, hcf]
          simp only [Bool.false_eq_true, if_false, ite_false]
          rw [hstep.2, umountAttempt_events, hec]
          simp [List.replicate_succ]

/-- C1: for every blocking call of the command runner, a local session
with a non-zero exit fails with the local error carrying stderr and
records stderr as the error payload; a remote session with exit status
exactly 255 fails with the transport error carrying stderr; a remote
session with any other non-zero exit fails with the remote error carrying
stdout and records stdout as the error payload; a zero exit returns
stdout. -/
theorem claim1_runCmd_blocking_classification (w : World) (st : HostState)
    (cmd : String) (sf : Bool) (dl : String) :
    (st.localhost = true →
      (w.exec st.clock (finalCmd st.ecfg cmd sf)).rc ≠ 0 →
      (runCmd w st cmd sf dl true).ret =
        .error (.localErr (w.exec st.clock (finalCmd st.ecfg cmd sf)).stderr) ∧
      (runCmd w st cmd sf dl true).st.perror =
        (w.exec st.clock (finalCmd st.ecfg cmd sf)).stderr) ∧
    (st.localhost = false →
      (w.exec st.clock (finalCmd st.ecfg cmd sf)).rc = 255 →
      (runCmd w st cmd sf dl true).ret =
        .error (.sshErr (w.exec st.clock (finalCmd st.ecfg cmd sf)).stderr)) ∧
    (st.localhost = false →
      (w.exec st.clock (finalCmd st.ecfg cmd sf)).rc ≠ 0 →
      (w.exec st.clock (finalCmd st.ecfg cmd sf)).rc ≠ 255 →
      (runCmd w st cmd sf dl true).ret =
        .error (.remoteErr (w.exec st.clock (finalCmd st.ecfg cmd sf)).stdout) ∧
      (runCmd w st cmd sf dl true).st.perror =
        (w.exec st.clock (finalCmd st.ecfg cmd sf)).stdout) ∧
    ((w.exec st.clock (finalCmd st.ecfg cmd sf)).rc = 0 →
      (runCmd w st cmd sf dl true).ret =
        .ok (some (w.exec st.clock (finalCmd st.ecfg cmd sf)).stdout)) := by
  refine ⟨fun hl h0 => ⟨?_, ?_⟩, fun hl h255 => ?_,
    fun hl h0 h255 => ⟨?_, ?_⟩, fun h0 => ?_⟩
  · simp [runCmd_wait_ret, retAfter, hl, h0]
  · simp [runCmd_wait_st, perrorAfter, hl, h0]
  · simp [runCmd_wait_ret, retAfter, hl, h255]
  · simp [runCmd_wait_ret, retAfter, hl, h0, h255]
  · simp [runCmd_wait_st, perrorAfter, hl, h0, h255]
  · exact runCmd_ok_of_rc_zero w st cmd sf dl h0

theorem claim1_witness :
    (runCmd wFail stLocal "ls -l" false "DBG1" true).ret =
      .error (.localErr "boom") ∧
    (runCmd wFail stLocal "ls -l" false "DBG1" true).st.perror = "boom" :=
  (claim1_runCmd_blocking_classification wFail stLocal "ls -l" false "DBG1").1
    (by decide) (by decide)

/-- C10: on a blocking remote call that fails with the transport-reserved
status 255, the recorded error payload perror stays the empty string set
at the start of the call even though the raised error carries stderr. -/
theorem claim10_ssh_failure_perror_empty (w : World) (st : HostState)
    (cmd : String) (sf : Bool) (dl : String)
    (hl : st.localhost = false)
    (h255 : (w.exec st.clock (finalCmd st.ecfg cmd sf)).rc = 255) :
    (runCmd w st cmd sf dl true).st.perror = "" ∧
    (runCmd w st cmd sf dl true).ret =
      .error (.sshErr (w.exec st.clock (finalCmd st.ecfg cmd sf)).stderr) := by
  constructor
  · simp [runCmd_wait_st, perrorAfter, hl, h255]
  · simp [runCmd_wait_ret, retAfter, hl, h255]

theorem claim10_witness :
    (runCmd wSsh stRemote "ls -l" false "DBG1" true).st.perror = "" ∧
    (runCmd wSsh stRemote "ls -l" false "DBG1" true).ret =
      .error (.sshErr "auth") :=
  claim10_ssh_failure_perror_empty wSsh stRemote "ls -l" false "DBG1"
    (by decide) (by decide)

/-- C5: a second or later call of the mount-point validator on the same
path returns immediately with no state change, no events and no error,
whatever the environment does in between; and any call records the path,
so the probes for a path run at most once per session. -/
theorem claim5_check_mtpoint_idempotent (w : World) (st : HostState)
    (p : String) (h : p ∈ st.checkmtpoint) :
    check_mtpoint w st p = ⟨st, [], .ok ()⟩ ∧
    ∀ (w2 : World) (st2 : HostState), p ∈ (check_mtpoint w2 st2 p).st.checkmtpoint := by
  refine ⟨check_mtpoint_mem w st p h, fun w2 st2 => ?_⟩
  rw [check_mtpoint_checklist]
  by_cases h2 : p ∈ st2.checkmtpoint <;> simp [h2]

theorem claim5_witness :
    check_mtpoint wOk stChecked "/mnt/t" = ⟨stChecked, [], .ok ()⟩ :=
  (claim5_check_mtpoint_idempotent wOk stChecked "/mnt/t" (by decide)).1

/-- C6 counterexample: a non-blocking call of the command runner returns
no value at all (the bare return in the source yields None), even though
the started process is registered and recorded in the session; the claim
that the call returns a tracked-process handle is therefore false. -/
theorem claim6_counterexample :
    (runCmd wOk stLocal "tcpdump" true "DBG1" false).ret = .ok none ∧
    (runCmd wOk stLocal "tcpdump" true "DBG1" false).st.process = some 100 ∧
    (runCmd wOk stLocal "tcpdump" true "DBG1" false).st.process_list = [100] := by
  exact ⟨rfl, rfl, rfl⟩

/-- C6 amended: a non-blocking call returns immediately with no value;
the handle of the started process is stored in the session attribute
process, and the registry records the process together with its debug
level and whether it was started with elevated privilege. -/
theorem claim6_nonblocking_registration (w : World) (st : HostState)
    (cmd : String) (sf : Bool) (dl : String) :
    (runCmd w st cmd sf dl false).ret = .ok none ∧
    (runCmd w st cmd sf dl false).st.process = some (w.spawnPid st.clock) ∧
    (runCmd w st cmd sf dl false).st.process_list =
      st.process_list ++ [w.spawnPid st.clock] ∧
    (runCmd w st cmd sf dl false).st.process_dmap =
      (w.spawnPid st.clock, dl) :: st.process_dmap ∧
    (runCmd w st cmd sf dl false).st.process_smap =
      (if sf then w.spawnPid st.clock :: st.process_smap
       else st.process_smap) := by
  refine ⟨runCmd_nowait_ret w st cmd sf dl, ?_, ?_, ?_, ?_⟩ <;>
    simp [runCmd_nowait_st]

/-- C3: the worked example produces exactly the expected mount command;
and for every mount call that builds a command (the option string must be
non-empty, or indexing its last character raises before any command is
issued), the command decomposes around the minor-version clause, which is
the given clause exactly for NFS major version 4 and empty otherwise, and
the option string is suffixed with a comma exactly when it does not
already end in one. -/
theorem claim3_mount_command_construction :
    buildMountCmd mountArgsEx =
      some ("mount -o vers=4,minorversion=1,hard,rsize=4096,wsize=4096," ++
        "proto=tcp,sec=sys,port=2049 10.0.0.1:/x /mnt/t") ∧
    ∀ a : MountArgs, a.mtopts ≠ "" →
      (∃ m, normMtopts a.mtopts = some m ∧
        (a.mtopts.back = ',' → m = a.mtopts) ∧
        (a.mtopts.back ≠ ',' → m = a.mtopts ++ ",") ∧
        buildMountCmd a =
          some ("mount -o vers=" ++ toString a.nfsversion ++ ","
            ++ minorversionStr a.nfsversion a.minorversion
            ++ m ++ "proto=" ++ a.proto ++ ",sec=" ++ a.sec ++ ",port="
            ++ toString a.port ++ " " ++ a.server ++ ":"
            ++ (if a.exportPath.length > 1 then rstripSlash a.exportPath
                else a.exportPath)
            ++ " " ++ rstripSlash a.mtpoint)) ∧
      (a.nfsversion = 4 → minorversionStr a.nfsversion a.minorversion =
        "minorversion=" ++ toString a.minorversion ++ ",") ∧
      (a.nfsversion ≠ 4 → minorversionStr a.nfsversion a.minorversion = "") := by
  refine ⟨by decide, fun a h => ⟨?_, fun h4 => ?_, fun h4 => ?_⟩⟩
  · by_cases hb : a.mtopts.back = ','
    · exact ⟨a.mtopts, by simp [normMtopts, h, hb], fun _ => rfl,
        fun hc => absurd hb hc, by simp [buildMountCmd, normMtopts, h, hb]⟩
    · exact ⟨a.mtopts ++ ",", by simp [normMtopts, h, hb],
        fun hc => absurd hc hb, fun _ => rfl,
        by simp [buildMountCmd, normMtopts, h, hb]⟩
  · simp [minorversionStr, h4]
  · simp [minorversionStr, h4]

theorem claim3_witness :
    "hard,rsize=4096,wsize=4096".back ≠ ',' ∧
    normMtopts "hard,rsize=4096,wsize=4096" =
      some ("hard,rsize=4096,wsize=4096" ++ ",") ∧
    minorversionStr 4 1 = "minorversion=" ++ toString 1 ++ "," := by
  refine ⟨by decide, ?_, ?_⟩
  · show normMtopts mountArgsEx.mtopts = some (mountArgsEx.mtopts ++ ",")
    obtain ⟨m, hm, -, hsfx, -⟩ :=
      (claim3_mount_command_construction.2 mountArgsEx (by decide)).1
    rw [hm, hsfx (by decide)]
  · exact ((claim3_mount_command_construction.2 mountArgsEx (by decide)).2.1) rfl

/-- C7 counterexample: a routing output that contains a dev clause but no
src clause does not parse at all; the device comes back as None, so the
source field is not optional and the device is not extracted whenever a
source is missing. -/
theorem claim7_counterexample :
    (get_route wNoSrc stLocal "10.0.0.1").ret = .ok (none, none, none) ∧
    routeParse "10.0.0.1 dev eth0" = (none, none, none) ∧
    routeParse "10.0.0.1 dev eth0" ≠ (none, some "eth0", none) := by
  exact ⟨rfl, rfl, by decide⟩

/-- C7 amended: the parser treats only the gateway as optional; the device
and the source are both mandatory (an output lacking either fails to match
entirely and yields the all-None triple).  The worked example parses as
stated, an output without a via clause parses with the gateway absent, and
any failure of the query yields the all-None triple. -/
theorem claim7_get_route_parsing (w : World) (st : HostState) (ip : String)
    (hfail : (w.exec st.clock
      (finalCmd st.ecfg ("ip route get " ++ ip) false)).rc ≠ 0) :
    routeParse "10.0.0.1 via 10.0.0.254 dev eth0 src 10.0.0.5" =
      (some "10.0.0.254", some "eth0", some "10.0.0.5") ∧
    routeParse "10.0.0.1 dev lo src 10.0.0.1" =
      (none, some "lo", some "10.0.0.1") ∧
    routeParse "10.0.0.1 via 10.0.0.254 dev eth0" = (none, none, none) ∧
    (get_route w st ip).ret = .ok (none, none, none) := by
  refine ⟨by decide, by decide, by decide, ?_⟩
  unfold get_route
  dsimp only
  rw [runCmd_wait_ret]
  unfold retAfter
  by_cases hl : st.localhost <;>
    by_cases h255 : (w.exec st.clock
      (finalCmd st.ecfg ("ip route get " ++ ip) false)).rc = 255 <;>
    simp [hl, h255, hfail]

theorem claim7_witness :
    (get_route wFail stLocal "10.0.0.1").ret = .ok (none, none, none) :=
  (claim7_get_route_parsing wFail stLocal "10.0.0.1" (by decide)).2.2.2

/-- C2: with the nomount flag unset and a validated, non-invalid mount
point, unmount flushes buffers and then attempts the forced unmount at
most 5 times, each attempt preceded by a 1-second pause; an attempt
succeeds when its exit status is zero or the recorded error text matches
the not-mounted pattern; the loop stops at the first success and clears
the mounted flag; if all 5 attempts fail the mounted flag is unchanged;
in every case the call returns without raising. -/
theorem claim2_umount_retry (w : World) (st : HostState)
    (h1 : st.nomount = false) (h2 : st.mtpoint ∈ st.checkmtpoint)
    (h3 : st.mtpoint ∉ st.invalidmtpoint) :
    (umount w st).ret = .ok () ∧
    (match firstOkWithin
        (fun i => attemptOkB w st.ecfg ("umount -f " ++ st.mtpoint)
          (st.clock + i)) 5 with
     | some k =>
       (umount w st).st.mounted = false ∧
       (umount w st).events = Event.sync ::
         (List.replicate (k + 1)
           (attemptRound st.ecfg ("umount -f " ++ st.mtpoint))).flatten
     | none =>
       (umount w st).st.mounted = st.mounted ∧
       (umount w st).events = Event.sync ::
         (List.replicate 5
           (attemptRound st.ecfg ("umount -f " ++ st.mtpoint))).flatten) := by
  have hcm := check_mtpoint_mem w st st.mtpoint h2
  have hloop := umountLoopGo_spec w ("umount -f " ++ st.mtpoint) 5 st
  have hun : umount w st =
      ⟨(umountLoopGo w ("umount -f " ++ st.mtpoint) 5 st).1,
        Event.sync :: (umountLoopGo w ("umount -f " ++ st.mtpoint) 5 st).2,
        .ok ()⟩ := by
    unfold umount
    rw [hcm]
    simp [h1, h3]
  rw [hun]
  refine ⟨rfl, ?_⟩
  cases hfo : firstOkWithin
      (fun i => attemptOkB w st.ecfg ("umount -f " ++ st.mtpoint)
        (st.clock + i)) 5 with
  | none =>
    rw [hfo] at hloop
    exact ⟨hloop.1, by rw [hloop.2]⟩
  | some k =>
    rw [hfo] at hloop
    exact ⟨hloop.1, by rw [hloop.2]⟩

theorem claim2_witness :
    (umount wOk stChecked).ret = .ok () :=
  (claim2_umount_retry wOk stChecked rfl (by decide) (by decide)).1

/-- C9: when the nomount debug flag is set or the normalized mount point
is already recorded invalid (and the validation step itself does not
raise), mount returns None rather than the mount point, yet the session
attribute mtdir has already been reassigned to the joined data directory
or the normalized mount point. -/
theorem claim9_mount_shortcircuit_mtdir (w : World) (st : HostState)
    (a : MountArgs)
    (hok : (check_mtpoint w
      { st with mtdir := if a.datadir.length ≠ 0 then
          pathJoin (rstripSlash a.mtpoint) a.datadir
        else rstripSlash a.mtpoint } (rstripSlash a.mtpoint)).ret = .ok ())
    (hsc : st.nomount = true ∨ rstripSlash a.mtpoint ∈ st.invalidmtpoint) :
    (mount w st a).ret = .ok none ∧
    (mount w st a).st.mtdir =
      (if a.datadir.length ≠ 0 then pathJoin (rstripSlash a.mtpoint) a.datadir
       else rstripSlash a.mtpoint) := by
  have hnm := check_mtpoint_nomount w
    { st with mtdir := if a.datadir.length ≠ 0 then
        pathJoin (rstripSlash a.mtpoint) a.datadir
      else rstripSlash a.mtpoint } (rstripSlash a.mtpoint)
  have hinv := check_mtpoint_ok_invalid w
    { st with mtdir := if a.datadir.length ≠ 0 then
        pathJoin (rstripSlash a.mtpoint) a.datadir
      else rstripSlash a.mtpoint } (rstripSlash a.mtpoint) hok
  have hmd := check_mtpoint_mtdir w
    { st with mtdir := if a.datadir.length ≠ 0 then
        pathJoin (rstripSlash a.mtpoint) a.datadir
      else rstripSlash a.mtpoint } (rstripSlash a.mtpoint)
  have hguard : ((check_mtpoint w
      { st with mtdir := if a.datadir.length ≠ 0 then
          pathJoin (rstripSlash a.mtpoint) a.datadir
        else rstripSlash a.mtpoint } (rstripSlash a.mtpoint)).st.nomount = true ∨
      rstripSlash a.mtpoint ∈ (check_mtpoint w
      { st with mtdir := if a.datadir.length ≠ 0 then
          pathJoin (rstripSlash a.mtpoint) a.datadir
        else rstripSlash a.mtpoint } (rstripSlash a.mtpoint)).st.invalidmtpoint) := by
    rw [hnm, hinv]
    simpa using hsc
  unfold mount
  dsimp only
  rw [hok]
  dsimp only
  rw [if_pos]
  · exact ⟨rfl, by rw [hmd]⟩
  · simpa using hguard

theorem claim9_witness :
    (mount wOk stNomount stNomount.defaultMountArgs).ret = .ok none ∧
    (mount wOk stNomount stNomount.defaultMountArgs).st.mtdir = "/mnt/t" :=
  claim9_mount_shortcircuit_mtdir wOk stNomount stNomount.defaultMountArgs
    rfl (Or.inl rfl)

theorem teardown_go_events (w : World) :
    ∀ (l : List String) (s : HostState),
      (teardown_go w l s).2 =
        l.map (fun q => Event.cmd (finalCmd s.ecfg ("rmdir " ++ q) true) true true) := by
  intro l
  induction l with
  | nil => intro s; rfl
  | cons p rest ih =>
    intro s
    simp only [teardown_go]
    rw [runCmd_wait_events, ih (runCmd w s ("rmdir " ++ p) true "DBG3" true).st,
      runCmd_ecfg]
    simp

theorem mount_created (w : World) (st : HostState) (a : MountArgs) :
    (mount w st a).st.mtpoint_created =
      (check_mtpoint w
        { st with mtdir := if a.datadir.length ≠ 0 then
            pathJoin (rstripSlash a.mtpoint) a.datadir
          else rstripSlash a.mtpoint } (rstripSlash a.mtpoint)).st.mtpoint_created := by
  unfold mount
  dsimp only
  cases hr : (check_mtpoint w
      { st with mtdir := if a.datadir.length ≠ 0 then
          pathJoin (rstripSlash a.mtpoint) a.datadir
        else rstripSlash a.mtpoint } (rstripSlash a.mtpoint)).ret with
  | error e => simp
  | ok u =>
    dsimp only
    repeat' split
    all_goals simp [runCmd_created]

/-- C8 counterexample: a concrete remote session in which the validator
creates the mount point (recorded) and a successful mount then creates the
data directory through a mkdir command that is NOT recorded, so teardown
removes only the mount point and never the data directory. -/
theorem claim8_counterexample :
    (mount wC8 stC8 stC8.defaultMountArgs).ret = .ok (some "/mnt/t") ∧
    (mount wC8 stC8 stC8.defaultMountArgs).st.mtdir = "/mnt/t/data" ∧
    Event.cmd "ssh -t -t root@srv \"mkdir -m 0777 -p /mnt/t/data\"" false true ∈
      (mount wC8 stC8 stC8.defaultMountArgs).events ∧
    (mount wC8 stC8 stC8.defaultMountArgs).st.mtpoint_created = ["/mnt/t"] ∧
    (teardown_rmdirs wC8 (mount wC8 stC8 stC8.defaultMountArgs).st).2 =
      [Event.cmd "ssh -t -t root@srv \"/usr/bin/sudo rmdir /mnt/t\"" true true] := by
  exact ⟨rfl, rfl, by decide, rfl, rfl⟩

/-- C8 amended: the validator records a path in the created list exactly
when it creates it (the list grows by at most that path); teardown issues
exactly one elevated rmdir command per recorded path, in order, and
nothing else; but the data directory created by mount after a successful
mount command is never recorded: mount leaves the created list exactly as
the validation step left it. -/
theorem claim8_created_paths (w : World) (st : HostState) (p : String)
    (a : MountArgs) :
    ((check_mtpoint w st p).st.mtpoint_created = st.mtpoint_created ∨
     (check_mtpoint w st p).st.mtpoint_created = st.mtpoint_created ++ [p]) ∧
    (teardown_rmdirs w st).2 =
      st.mtpoint_created.map
        (fun q => Event.cmd (finalCmd st.ecfg ("rmdir " ++ q) true) true true) ∧
    (mount w st a).st.mtpoint_created =
      (check_mtpoint w
        { st with mtdir := if a.datadir.length ≠ 0 then
            pathJoin (rstripSlash a.mtpoint) a.datadir
          else rstripSlash a.mtpoint } (rstripSlash a.mtpoint)).st.mtpoint_created :=
  ⟨check_mtpoint_created_or w st p,
   teardown_go_events w st.mtpoint_created st,
   mount_created w st a⟩

/-- Stopping one explicitly named process that is tracked and was started
with elevated privilege: a privileged kill command is issued through the
command runner, the process is removed from both registry maps, and the
call returns its exit status. -/
theorem stop_one_sudo (w : World) (st' : HostState) (pid : Nat)
    (h : pid ∈ st'.process_list) (hs : pid ∈ st'.process_smap)
    (hex : ∀ k c, (w.exec k c).rc = 0) :
    wait_cmd_go w true [pid] st' none none =
      ⟨{ (runCmd w st' ("kill " ++ toString pid) true
            ((lookupD st'.process_dmap pid).getD "DBG1") true).st with
          process_smap := ((runCmd w st' ("kill " ++ toString pid) true
            ((lookupD st'.process_dmap pid).getD "DBG1") true).st.process_smap).erase pid,
          process_list := ((runCmd w st' ("kill " ++ toString pid) true
            ((lookupD st'.process_dmap pid).getD "DBG1") true).st.process_list).erase pid },
        [Event.cmd (finalCmd st'.ecfg ("kill " ++ toString pid) true) true true,
         Event.waitPid pid],
        .ok (some (w.procWait pid))⟩ := by
  have hret := runCmd_ok_of_rc_zero w st' ("kill " ++ toString pid) true
    ((lookupD st'.process_dmap pid).getD "DBG1") (hex _ _)
  have hev := runCmd_wait_events w st' ("kill " ++ toString pid) true
    ((lookupD st'.process_dmap pid).getD "DBG1")
  simp only [wait_cmd_go, h, hs, if_true, ite_true, Option.isSome_none,
    Bool.false_eq_true, if_false, ite_false, hret, hev]
  rfl

/-- Stopping one explicitly named tracked process that was not started
with elevated privilege: an ordinary terminate signal is sent, the
process is removed from the registry, and the call returns its exit
status. -/
theorem stop_one_plain (w : World) (st' : HostState) (pid : Nat)
    (h : pid ∈ st'.process_list) (hs : pid ∉ st'.process_smap) :
    wait_cmd_go w true [pid] st' none none =
      ⟨{ st' with process_list := st'.process_list.erase pid },
        [Event.terminateSig pid, Event.waitPid pid],
        .ok (some (w.procWait pid))⟩ := by
  simp only [wait_cmd_go, h, hs, if_true, ite_true, Option.isSome_none,
    Bool.false_eq_true, if_false, ite_false]
  rfl

/-- Stopping a process that is no longer in the registry is a silent
no-op returning None. -/
theorem stop_one_absent (w : World) (st' : HostState) (pid : Nat)
    (h : pid ∉ st'.process_list) :
    wait_cmd_go w true [pid] st' none none = ⟨st', [], .ok none⟩ := by
  simp only [wait_cmd_go, h, if_false, ite_false]

/-- C4: a non-blocking start registers exactly one process; stopping that
process issues a privileged kill command exactly when it was started with
elevated privilege and otherwise sends an ordinary terminate signal, then
removes it from the registry and returns its exit status; a second stop
passing the same handle is a silent no-op returning None because
unregistered processes are ignored. -/
theorem claim4_process_registry (w : World) (st : HostState) (cmd : String)
    (sf : Bool) (dl : String)
    (hfl : w.spawnPid st.clock ∉ st.process_list)
    (hfs : w.spawnPid st.clock ∉ st.process_smap)
    (hex : ∀ k c, (w.exec k c).rc = 0) :
    (runCmd w st cmd sf dl false).st.process_list =
      st.process_list ++ [w.spawnPid st.clock] ∧
    (sf = true →
      (stop_cmd w (runCmd w st cmd sf dl false).st
          (some (w.spawnPid st.clock)) none).events =
        [Event.cmd (finalCmd st.ecfg
            ("kill " ++ toString (w.spawnPid st.clock)) true) true true,
         Event.waitPid (w.spawnPid st.clock)]) ∧
    (sf = false →
      (stop_cmd w (runCmd w st cmd sf dl false).st
          (some (w.spawnPid st.clock)) none).events =
        [Event.terminateSig (w.spawnPid st.clock),
         Event.waitPid (w.spawnPid st.clock)]) ∧
    (stop_cmd w (runCmd w st cmd sf dl false).st
        (some (w.spawnPid st.clock)) none).st.process_list = st.process_list ∧
    (stop_cmd w (runCmd w st cmd sf dl false).st
        (some (w.spawnPid st.clock)) none).st.process_smap = st.process_smap ∧
    (stop_cmd w (runCmd w st cmd sf dl false).st
        (some (w.spawnPid st.clock)) none).ret =
      .ok (some (w.procWait (w.spawnPid st.clock))) ∧
    stop_cmd w (stop_cmd w (runCmd w st cmd sf dl false).st
        (some (w.spawnPid st.clock)) none).st
        (some (w.spawnPid st.clock)) none =
      ⟨(stop_cmd w (runCmd w st cmd sf dl false).st
          (some (w.spawnPid st.clock)) none).st, [], .ok none⟩ := by
  have hsdef : ∀ st' : HostState, stop_cmd w st' (some (w.spawnPid st.clock)) none =
      wait_cmd_go w true [w.spawnPid st.clock] st' none none := fun _ => rfl
  have hp1 : (runCmd w st cmd sf dl false).st.process_list =
      st.process_list ++ [w.spawnPid st.clock] := by
    simp [runCmd_nowait_st]
  have hpmem : w.spawnPid st.clock ∈ (runCmd w st cmd sf dl false).st.process_list := by
    rw [hp1]; simp
  have hsm : (runCmd w st cmd sf dl false).st.process_smap =
      (if sf then w.spawnPid st.clock :: st.process_smap else st.process_smap) := by
    simp [runCmd_nowait_st]
  have hec : (runCmd w st cmd sf dl false).st.ecfg = st.ecfg :=
    runCmd_ecfg w st cmd sf dl false
  have herase : ((runCmd w st cmd sf dl false).st.process_list).erase
      (w.spawnPid st.clock) = st.process_list := by
    rw [hp1, List.erase_append_right _ hfl]
    simp
  cases sf with
  | true =>
    have hsmem : w.spawnPid st.clock ∈ (runCmd w st cmd true dl false).st.process_smap := by
      rw [hsm]; simp
    have hstop := stop_one_sudo w (runCmd w st cmd true dl false).st
      (w.spawnPid st.clock) hpmem hsmem hex
    rw [hsdef, hsdef, hstop]
    have hkpl := runCmd_wait_plist w (runCmd w st cmd true dl false).st
      ("kill " ++ toString (w.spawnPid st.clock)) true
      ((lookupD (runCmd w st cmd true dl false).st.process_dmap
        (w.spawnPid st.clock)).getD "DBG1")
    have hksm := runCmd_wait_smap w (runCmd w st cmd true dl false).st
      ("kill " ++ toString (w.spawnPid st.clock)) true
      ((lookupD (runCmd w st cmd true dl false).st.process_dmap
        (w.spawnPid st.clock)).getD "DBG1")
    refine ⟨hp1, ?_, ?_, ?_, ?_, rfl, ?_⟩
    · intro _
      rw [hec]
    · intro hff
      exact absurd hff (by decide)
    · simp only [hkpl, herase]
    · simp only [hksm, hsm]
      simp [List.erase_cons_head, hfs]
    · refine stop_one_absent w _ (w.spawnPid st.clock) ?_
      simp only [hkpl, herase]
      exact hfl
  | false =>
    have hsnmem : w.spawnPid st.clock ∉ (runCmd w st cmd false dl false).st.process_smap := by
      rw [hsm]; simpa using hfs
    have hstop := stop_one_plain w (runCmd w st cmd false dl false).st
      (w.spawnPid st.clock) hpmem hsnmem
    rw [hsdef, hsdef, hstop]
    refine ⟨hp1, ?_, ?_, ?_, ?_, rfl, ?_⟩
    · intro htt
      exact absurd htt (by decide)
    · intro _
      rfl
    · simp only [herase]
    · simp only [hsm]
      simp
    · refine stop_one_absent w _ (w.spawnPid st.clock) ?_
      simp only [herase]
      exact hfl

theorem claim4_witness :
    (runCmd wOk stLocal "tcpdump -i eth0" true "DBG1" false).st.process_list =
      [100] ∧
    (stop_cmd wOk (runCmd wOk stLocal "tcpdump -i eth0" true "DBG1" false).st
        (some 100) none).events =
      [Event.cmd "/usr/bin/sudo kill 100" true true, Event.waitPid 100] ∧
    (stop_cmd wOk (runCmd wOk stLocal "tcpdump -i eth0" true "DBG1" false).st
        (some 100) none).st.process_list = [] := by
  have h := claim4_process_registry wOk stLocal "tcpdump -i eth0" true "DBG1"
    (by decide) (by decide) (fun _ _ => rfl)
  exact ⟨h.1, h.2.1 rfl, h.2.2.2.1⟩

end Nfstest
